import Mathlib

/-!
Shallow embedding of the QuickEscrowBot conversation state machine
(src/telegram_bot.py) and its transaction service client.

Modelling conventions:
- Python dict sessions `{'state': ..., 'username': ..., 'transaction': ...}`
  become the `Session` structure; an absent key is `none`.
- The global `self.user_sessions : Dict[int, Dict]` becomes an association
  list `SessionStore`; `getSession`/`setSession` model dict read/write.
- HTTP calls made through `requests` are modelled by a `RequestOutcome`
  oracle value supplied per event: `response s j` is an HTTP response with
  status code `s` whose `.json()` parses to `j` (`none` models a body whose
  JSON parsing raises inside the guarded region), `transportError e` models
  a raised transport exception.
- Randomness (`random.random()`) becomes an oracle rational `rand` in [0,1);
  `datetime.now()` formatting becomes the oracle string `now`; the qrcode
  library call becomes the oracle boolean `qrOk`.
- Python exceptions that can escape a handler body are modelled by the
  `HandlerResult.exn` constructor, which carries the store mutations and
  side effects performed before the raise.
- Outbound chat sends are collected in `Effects.messages`. Transient
  animation messages that the code sends and immediately deletes (the
  shield/loading/emoji animations) are cosmetic no-ops and are not recorded.
  Inline keyboards attached to messages are not modelled; long static
  template texts are transcribed with whitespace normalized and without
  apostrophes, which no claim depends on.
-/

/-- Transaction record as consumed from the external API JSON. -/
structure Transaction where
  id : Int
  transactionId : String
  telegramUserId : String
  amount : Int
  status : String
  qrCodeData : String
  createdAt : String
deriving Repr, DecidableEq

/-- Group link record as consumed from the external API JSON; `isActive`
is optional like the dict key read with `.get('isActive', True)`. -/
structure GroupLink where
  name : String
  url : String
  isActive : Option Bool := none
deriving Repr, DecidableEq

/-- Per-user session dict: `state` is always present, the other keys are
optional (absent modelled as `none`). -/
structure Session where
  state : String
  username : Option String := none
  transaction : Option Transaction := none
deriving Repr, DecidableEq

/-- The in-memory user_sessions mapping, as an association list keyed by
the integer user id. -/
abbrev SessionStore := List (Nat × Session)

/-- Dict read: `self.user_sessions.get(user_id)` / `user_id in self.user_sessions`. -/
def getSession : SessionStore → Nat → Option Session
  | [], _ => none
  | (k, v) :: rest, uid => if k == uid then some v else getSession rest uid

/-- Dict write: `self.user_sessions[user_id] = sess` (replaces any earlier
binding for the key). -/
def setSession : SessionStore → Nat → Session → SessionStore
  | [], uid, s => [(uid, s)]
  | (k, v) :: rest, uid, s =>
    if k == uid then (uid, s) :: rest else (k, v) :: setSession rest uid s

/-- Outcome of one `requests` call, as seen inside the try block. -/
inductive RequestOutcome (β : Type)
  | response (status_code : Nat) (json : Option β)
  | transportError (e : String)
deriving Repr, DecidableEq

/-- Inbound chat message (`message`): sender id, optional sender username,
chat id and text. -/
structure Message where
  from_user_id : Nat
  from_username : Option String := none
  chat_id : Nat
  text : String := ""
deriving Repr, DecidableEq

/-- Inbound button callback (`call`): the tapping user's id, the opaque
callback data, and the message the button was attached to (whose
`from_user` is the bot, not the tapping user). -/
structure Call where
  from_user_id : Nat
  data : String
  message : Message
deriving Repr, DecidableEq

/-- Outbound chat content: a text send or a photo send with caption. -/
inductive OutMsg
  | text (chat_id : Nat) (body : String)
  | photo (chat_id : Nat) (caption : String)
deriving Repr, DecidableEq

/-- Side effects accumulated while handling one inbound event: outbound
messages, transaction-creation POST calls (user id, username, amount),
status PATCH calls (transaction id, status), and log lines. -/
structure Effects where
  messages : List OutMsg := []
  createCalls : List (Nat × String × Int) := []
  patchCalls : List (Int × String) := []
  logs : List String := []
deriving Repr, DecidableEq

/-- Result of running a handler body: normal return, or a raised Python
exception together with the store state and effects at the raise point. -/
inductive HandlerResult
  | ok (store : SessionStore) (eff : Effects)
  | exn (store : SessionStore) (eff : Effects) (err : String)
deriving Repr, DecidableEq

/-- Session store component of a handler result. -/
def HandlerResult.store : HandlerResult → SessionStore
  | .ok s _ => s
  | .exn s _ _ => s

/-- Effects component of a handler result. -/
def HandlerResult.eff : HandlerResult → Effects
  | .ok _ e => e
  | .exn _ e _ => e

/-- Whether the handler body returned without raising. -/
def HandlerResult.isOk : HandlerResult → Bool
  | .ok _ _ => true
  | .exn _ _ _ => false

/-- Per-event oracle: the environment responses and nondeterministic draws
consumed while handling one inbound event. -/
structure Oracle where
  createResp : RequestOutcome Transaction
  patchResp : RequestOutcome Unit
  listResp : RequestOutcome (List Transaction)
  linksResp : RequestOutcome (List GroupLink)
  qrOk : Bool
  rand : Rat
  now : String

/-- Python `str.strip()` over the character list (ASCII and unicode
whitespace as recognised by `Char.isWhitespace`). -/
def pyStrip (s : String) : String :=
  String.mk (((s.data.dropWhile Char.isWhitespace).reverse.dropWhile Char.isWhitespace).reverse)

/-- Accumulating worker of the one-character-separator split. -/
def splitCharAux (sep : Char) : List Char → List Char → List String
  | [], acc => [String.mk acc.reverse]
  | c :: cs, acc =>
    if c == sep then String.mk acc.reverse :: splitCharAux sep cs []
    else splitCharAux sep cs (c :: acc)

/-- Python `str.split(sep)` for a one-character separator, keeping empty
segments. -/
def splitChar (sep : Char) (s : String) : List String :=
  splitCharAux sep s.data []

/-- Python `str.startswith(pre)`. -/
def pyStartsWith (s pre : String) : Bool :=
  pre.data.isPrefixOf s.data

/-- Python slice `s[:n]`. -/
def pySlice (s : String) (n : Nat) : String :=
  String.mk (s.data.take n)

/-- Lexicographic comparison of character lists. -/
def charListLe : List Char → List Char → Bool
  | [], _ => true
  | _ :: _, [] => false
  | a :: as, b :: bs =>
    if a < b then true
    else if b < a then false
    else charListLe as bs

/-- Lexicographic string comparison, matching the Python comparison of
ISO-format timestamp strings (newer timestamps compare larger). -/
def strLe (a b : String) : Bool := charListLe a.data b.data

/-- Digit tail of a Python integer literal: decimal digits with single
underscores allowed only between digits, as accepted by `int(str)`. -/
def pyDigitsRest (acc : Nat) : List Char → Option Nat
  | [] => some acc
  | c :: cs =>
    if c == '_' then
      match cs with
      | [] => none
      | d :: ds =>
        if d.isDigit then pyDigitsRest (acc * 10 + (d.toNat - 48)) ds else none
    else if c.isDigit then pyDigitsRest (acc * 10 + (c.toNat - 48)) cs
    else none

/-- Nonempty digit run starting a Python integer literal. -/
def pyDigits : List Char → Option Nat
  | [] => none
  | c :: cs => if c.isDigit then pyDigitsRest (c.toNat - 48) cs else none

/-- Python `int(str)`: optional surrounding whitespace, optional single
sign, then ASCII decimal digits (underscore separators allowed between
digits); `none` models the `ValueError` raise. Non-ASCII numerals are not
modelled. -/
def pyInt (s : String) : Option Int :=
  match (pyStrip s).data with
  | '+' :: rest => (pyDigits rest).map (fun n => (n : Int))
  | '-' :: rest => (pyDigits rest).map (fun n => -(n : Int))
  | rest => (pyDigits rest).map (fun n => (n : Int))

/-- Character stream of Python `str.title()`: uppercase an alphabetic
character not preceded by an alphabetic one, lowercase the rest. -/
def pyTitleAux : Bool → List Char → List Char
  | _, [] => []
  | prevAlpha, c :: cs =>
    let c2 := if c.isAlpha then (if prevAlpha then c.toLower else c.toUpper) else c
    c2 :: pyTitleAux c.isAlpha cs

/-- Python `str.title()` restricted to ASCII letters. -/
def pyTitle (s : String) : String :=
  String.mk (pyTitleAux false s.data)

/-- Python `data.split("_")[i]`; the default is unreachable at the call
sites because a `"..._"` prefix check guarantees the index exists. -/
def splitPart (data : String) (i : Nat) : String :=
  (splitChar '_' data).getD i ""

/-- Client call `create_transaction`: POST /transactions; returns the
parsed transaction on a 200 response, `None` otherwise, logging HTTP
failures and raised exceptions; never raises to the caller. -/
def create_transaction (user_id : Nat) (username : String) (amount : Int)
    (outcome : RequestOutcome Transaction) : Option Transaction × List String :=
  match outcome with
  | .response s j =>
    if s == 200 then
      match j with
      | some t => (some t, [])
      | none => (none, ["Error creating transaction: invalid JSON body"])
    else
      (none, ["Failed to create transaction"])
  | .transportError e =>
    (none, ["Error creating transaction: " ++ e])

/-- Client call `update_transaction_status`: PATCH /transactions/{id};
returns `status_code == 200` (a non-200 response is not logged), logs and
returns false on a raised transport exception; never raises. -/
def update_transaction_status (transaction_id : Int) (status : String)
    (outcome : RequestOutcome Unit) : Bool × List String :=
  match outcome with
  | .response s _ => (s == 200, [])
  | .transportError e => (false, ["Error updating transaction: " ++ e])

/-- Simulated payment verification `verify_payment`: the uniform draw
`random.random()` is the explicit argument `r`; returns `r > 0.2`, the
threshold 0.2 being modelled as the exact rational one fifth (an 80
percent success region of the unit interval), ignoring the transaction
id. -/
def verify_payment (transaction_id : String) (r : Rat) : Bool :=
  decide (mkRat 1 5 < r)

/-- Static welcome template sent by handle_start (text condensed; the
inline menu with four navigation buttons is not modelled). -/
def welcomeText : String :=
  "🛡️ **Welcome to QuickEscrowBot!** ⚡ Choose an option below to begin:"

/-- Static amount-selection template sent by show_amount_selection (text
condensed; the preset/custom/cancel buttons are not modelled). -/
def amountSelectionText : String :=
  "💰 **Select Escrow Amount** Choose from quick options below or enter a custom amount:"

/-- Static help template sent by handle_help (text condensed). -/
def helpText : String :=
  "❓ **QuickEscrowBot Help** Available Commands: /start /escrow /status /help"

/-- Static support template sent by show_support_info (text condensed). -/
def supportText : String :=
  "📞 **Contact Support** Telegram: @quickescrow_support"

/-- Caption of the payment QR photo built in show_payment_qr. -/
def paymentCaption (t : Transaction) : String :=
  "💳 **Scan to Pay!**\n\n🔹 **Amount:** Rs. " ++ toString t.amount ++
  "\n🔹 **UPI ID:** quickescrow@upi\n🔹 **Transaction ID:** " ++ t.transactionId ++
  "\n\n📱 Scan the QR code below to complete payment:"

/-- Success screen template of show_payment_result (contraction-free
transcription; `now` is the formatted current date-time). -/
def successText (t : Transaction) (now : String) : String :=
  "✅ **Payment Successful!**\n\n🎉 Your escrow transaction is now active! ✨\n\n" ++
  "**Transaction Details:**\n• Amount: Rs. " ++ toString t.amount ++
  "\n• Status: Escrowed\n• Transaction ID: " ++ t.transactionId ++
  "\n• Date: " ++ now ++ "\n\nThank you for using QuickEscrowBot! 🛡️"

/-- Failure screen template of show_payment_result (contraction-free
transcription; it reads no transaction field). -/
def failText : String :=
  "❌ **Payment Failed**\n\nSorry, we could not verify your payment. Please try again or contact support."

/-- Status glyph lookup of handle_status_check: dict get with default ⚪. -/
def statusEmoji (status : String) : String :=
  if status == "pending" then "⏳"
  else if status == "completed" then "✅"
  else if status == "failed" then "❌"
  else "⚪"

/-- One rendered entry of the status screen: glyph, display id, amount,
title-cased status label, and the first 10 characters (date portion) of
the creation timestamp. -/
def statusLine (t : Transaction) : String :=
  statusEmoji t.status ++ " **" ++ t.transactionId ++ "**\n" ++
  "   Amount: Rs. " ++ toString t.amount ++ "\n" ++
  "   Status: " ++ pyTitle t.status ++ "\n" ++
  "   Date: " ++ pySlice t.createdAt 10 ++ "\n\n"

/-- Header line of the status screen when transactions exist. -/
def statusHeader : String :=
  "📊 **Your Recent Transactions:**\n\n"

/-- Status screen shown when the user has no transactions. -/
def noTransactionsText : String :=
  "📊 No transactions found.\n\nUse /escrow to start your first transaction!"

/-- Status screen shown when the transactions fetch fails. -/
def statusErrText : String :=
  "❌ Unable to fetch transaction status. Please try again later."

/-- Messages sent by show_payment_qr: the QR photo with caption when the
qrcode library succeeds, otherwise the retry text (the transient loading
animation is elided). -/
def show_payment_qr (chat_id : Nat) (t : Transaction) (qrOk : Bool) : List OutMsg :=
  if qrOk then [OutMsg.photo chat_id (paymentCaption t)]
  else [OutMsg.text chat_id "❌ Failed to generate QR code. Please try again."]

/-- Handler show_payment_result: on success the template reads fields of
the stored transaction, so a missing transaction record (the empty dict
default of session.get) raises KeyError during formatting; the failure
template reads no transaction field and always renders. -/
def show_payment_result (chat_id : Nat) (success : Bool)
    (txn : Option Transaction) (now : String) : Except String (List OutMsg) :=
  if success then
    match txn with
    | some t => Except.ok [OutMsg.text chat_id (successText t now)]
    | none => Except.error "KeyError"
  else
    Except.ok [OutMsg.text chat_id failText]

/-- Handler process_amount_selection: reads the session (KeyError when
absent), creates the transaction with the session username defaulted to
"User", on success stores the transaction in the session (the state key is
not touched) and shows the payment QR, on failure sends the retry text. -/
def process_amount_selection (o : Oracle) (store : SessionStore)
    (chat_id user_id : Nat) (amount : Int) : HandlerResult :=
  match getSession store user_id with
  | none => HandlerResult.exn store {} "KeyError"
  | some sess =>
    let username := sess.username.getD "User"
    match create_transaction user_id username amount o.createResp with
    | (some t, logs) =>
      HandlerResult.ok (setSession store user_id { sess with transaction := some t })
        { messages := show_payment_qr chat_id t o.qrOk,
          createCalls := [(user_id, username, amount)], logs := logs }
    | (none, logs) =>
      HandlerResult.ok store
        { messages := [OutMsg.text chat_id "❌ Failed to create transaction. Please try again."],
          createCalls := [(user_id, username, amount)], logs := logs }

/-- Handler process_payment_verification: runs the simulated verification,
patches the transaction status (the returned boolean is ignored), then
reads the session (KeyError when absent; the patch call has already
happened) and renders the outcome screen. The session is never written. -/
def process_payment_verification (o : Oracle) (store : SessionStore)
    (chat_id user_id : Nat) (transaction_id : Int) : HandlerResult :=
  let success := verify_payment (toString transaction_id) o.rand
  let status := if success then "completed" else "failed"
  let u := update_transaction_status transaction_id status o.patchResp
  let eff0 : Effects := { patchCalls := [(transaction_id, status)], logs := u.2 }
  match getSession store user_id with
  | none => HandlerResult.exn store eff0 "KeyError"
  | some sess =>
    match show_payment_result chat_id success sess.transaction o.now with
    | Except.ok msgs => HandlerResult.ok store { eff0 with messages := msgs }
    | Except.error e => HandlerResult.exn store eff0 e

/-- Handler handle_start: replaces the session with state welcome plus the
captured username (a missing or empty platform username defaults to
"User"), then sends the welcome menu. -/
def handle_start (store : SessionStore) (msg : Message) : HandlerResult :=
  let username := match msg.from_username with
    | some u => if u == "" then "User" else u
    | none => "User"
  HandlerResult.ok
    (setSession store msg.from_user_id { state := "welcome", username := some username })
    { messages := [OutMsg.text msg.chat_id welcomeText] }

/-- Handler handle_escrow_start: replaces the session with a dict holding
only the selecting_amount state, then shows the amount menu. -/
def handle_escrow_start (store : SessionStore) (msg : Message) : HandlerResult :=
  HandlerResult.ok
    (setSession store msg.from_user_id { state := "selecting_amount" })
    { messages := [OutMsg.text msg.chat_id amountSelectionText] }

/-- Status text and log lines produced by handle_status_check from the
GET /transactions outcome: on a parsed 200 response the list is filtered
to the user and the first 5 entries are rendered in response order. -/
def statusBodyText (user_id : Nat) (outcome : RequestOutcome (List Transaction)) :
    String × List String :=
  match outcome with
  | .response 200 (some txns) =>
    let user_txns := txns.filter (fun t => t.telegramUserId == toString user_id)
    if user_txns.isEmpty then (noTransactionsText, [])
    else (statusHeader ++ String.join ((user_txns.take 5).map statusLine), [])
  | .response 200 none => (statusErrText, ["Error fetching status: invalid JSON body"])
  | .response _ _ => (statusErrText, [])
  | .transportError e => (statusErrText, ["Error fetching status: " ++ e])

/-- Handler handle_status_check: fetch errors are caught inside the
handler; the session store is never touched. -/
def handle_status_check (o : Oracle) (store : SessionStore) (msg : Message) : HandlerResult :=
  let r := statusBodyText msg.from_user_id o.listResp
  HandlerResult.ok store { messages := [OutMsg.text msg.chat_id r.1], logs := r.2 }

/-- Handler handle_help: sends the static help template. -/
def handle_help (store : SessionStore) (msg : Message) : HandlerResult :=
  HandlerResult.ok store { messages := [OutMsg.text msg.chat_id helpText] }

/-- Handler show_group_links: renders one line per active link (missing
isActive treated as active); fetch errors are caught inside the handler. -/
def show_group_links (o : Oracle) (chat_id : Nat) : Effects :=
  match o.linksResp with
  | .response 200 (some links) =>
    let active := links.filter (fun l => l.isActive.getD true)
    if active.isEmpty then
      { messages := [OutMsg.text chat_id "🔗 No group links available at the moment."] }
    else
      { messages := [OutMsg.text chat_id ("🔗 **Available Group Links:**\n\n" ++
          String.join (active.map (fun l => "• " ++ l.name ++ "\n")))] }
  | .response 200 none =>
    { messages := [OutMsg.text chat_id "❌ Unable to fetch group links."],
      logs := ["Error fetching group links: invalid JSON body"] }
  | .response _ _ =>
    { messages := [OutMsg.text chat_id "❌ Unable to fetch group links."] }
  | .transportError e =>
    { messages := [OutMsg.text chat_id "❌ Unable to fetch group links."],
      logs := ["Error fetching group links: " ++ e] }

/-- Handler show_support_info: sends the static support template. -/
def show_support_info (store : SessionStore) (chat_id : Nat) : HandlerResult :=
  HandlerResult.ok store { messages := [OutMsg.text chat_id supportText] }

/-- Handler handle_message: free text is interpreted only when a session
exists in state entering_custom_amount, where it is parsed as a Python
int; a parse failure or a non-positive value reprompts without a service
call or state change; with a session in any other state the branch falls
through and nothing is sent; without a session the generic nudge is sent. -/
def handle_message (o : Oracle) (store : SessionStore) (msg : Message) : HandlerResult :=
  match getSession store msg.from_user_id with
  | some sess =>
    if sess.state == "entering_custom_amount" then
      match pyInt msg.text with
      | some amount =>
        if amount > 0 then
          process_amount_selection o store msg.chat_id msg.from_user_id amount
        else
          HandlerResult.ok store
            { messages := [OutMsg.text msg.chat_id "❌ Please enter a valid amount greater than 0."] }
      | none =>
        HandlerResult.ok store
          { messages := [OutMsg.text msg.chat_id "❌ Please enter a valid number."] }
    else
      HandlerResult.ok store {}
  | none =>
    HandlerResult.ok store
      { messages := [OutMsg.text msg.chat_id "👋 Hi! Use /start to begin or /help for assistance."] }

/-- Dispatch body of handle_callback (the region inside its try block,
after the callback acknowledgement): the elif chain on the opaque callback
data, in source order. The amount and payment_done branches parse the
identifier suffix with Python int (a ValueError raise is an exn result);
the amount_custom branch writes the state key of an existing session
(KeyError raise when no session exists). The cancel and check_status
branches act on call.message, whose sender is the bot. -/
def callback_dispatch (o : Oracle) (store : SessionStore) (call : Call) : HandlerResult :=
  let user_id := call.from_user_id
  let data := call.data
  let chat_id := call.message.chat_id
  if data == "start_escrow" then
    HandlerResult.ok (setSession store user_id { state := "selecting_amount" })
      { messages := [OutMsg.text chat_id amountSelectionText] }
  else if pyStartsWith data "amount_" then
    if data == "amount_custom" then
      match getSession store user_id with
      | none => HandlerResult.exn store {} "KeyError"
      | some sess =>
        HandlerResult.ok (setSession store user_id { sess with state := "entering_custom_amount" })
          { messages := [OutMsg.text chat_id "📝 Please enter the amount in Rs. (e.g., 750):"] }
    else
      match pyInt (splitPart data 1) with
      | none => HandlerResult.exn store {} "ValueError"
      | some amount => process_amount_selection o store chat_id user_id amount
  else if pyStartsWith data "payment_done_" then
    match pyInt (splitPart data 2) with
    | none => HandlerResult.exn store {} "ValueError"
    | some tid => process_payment_verification o store chat_id user_id tid
  else if data == "cancel" then
    handle_start store call.message
  else if data == "check_status" then
    handle_status_check o store call.message
  else if data == "group_links" then
    HandlerResult.ok store (show_group_links o chat_id)
  else if data == "help" then
    handle_help store call.message
  else if data == "support" then
    show_support_info store chat_id
  else
    HandlerResult.ok store {}

/-- Handler handle_callback: the per-event boundary. A raise anywhere in
the dispatch body is caught, logged, and answered with the generic error
text; store mutations and effects performed before the raise persist. -/
def handle_callback (o : Oracle) (store : SessionStore) (call : Call) :
    SessionStore × Effects :=
  match callback_dispatch o store call with
  | HandlerResult.ok s e => (s, e)
  | HandlerResult.exn s e err =>
    (s, { e with
          messages := e.messages ++
            [OutMsg.text call.message.chat_id "❌ An error occurred. Please try again."],
          logs := e.logs ++ ["Error handling callback: " ++ err] })

/-- Writing a session and reading it back at the same key yields that
session. -/
theorem getSession_setSession (store : SessionStore) (uid : Nat) (s : Session) :
    getSession (setSession store uid s) uid = some s := by
  induction store with
  | nil => simp [getSession, setSession]
  | cons p rest ih =>
    obtain ⟨k, v⟩ := p
    by_cases h : k = uid
    · subst h
      simp [getSession, setSession]
    · simp [getSession, setSession, h, ih]

/-- Sample transaction record used in concrete instantiations. -/
def txA : Transaction :=
  { id := 7, transactionId := "TXN-7", telegramUserId := "1", amount := 100,
    status := "pending", qrCodeData := "upi://pay?pa=quickescrow@upi",
    createdAt := "2024-01-02T03:04:05" }

/-- Sample session in the amount-selection state with a captured username. -/
def sessA : Session :=
  { state := "selecting_amount", username := some "alice" }

/-- Store holding only user 1 in the amount-selection state. -/
def store1 : SessionStore := [(1, sessA)]

/-- Sample session awaiting payment with a stored transaction record. -/
def sessB : Session :=
  { state := "selecting_amount", username := some "bob", transaction := some txA }

/-- Store holding only user 2 with a stored transaction. -/
def store2 : SessionStore := [(2, sessB)]

/-- Oracle whose service calls all succeed, with a verification draw in
the success region. -/
def oracleOk : Oracle :=
  { createResp := RequestOutcome.response 200 (some txA),
    patchResp := RequestOutcome.response 200 none,
    listResp := RequestOutcome.response 200 (some []),
    linksResp := RequestOutcome.response 200 (some []),
    qrOk := true, rand := mkRat 1 2, now := "2024-01-02 03:04" }

/-- Oracle whose transaction-creation call raises a transport error. -/
def oracleFailCreate : Oracle :=
  { oracleOk with createResp := RequestOutcome.transportError "connection refused" }

/-- Oracle whose status-patch call raises a transport error. -/
def oraclePatchDown : Oracle :=
  { oracleOk with patchResp := RequestOutcome.transportError "API unreachable" }

/-- Callback event: user 2 taps the payment-done button of transaction 7
on a bot message in chat 20. -/
def callPD : Call :=
  { from_user_id := 2, data := "payment_done_7",
    message := { from_user_id := 999, from_username := some "QuickEscrowBot",
                 chat_id := 20, text := "" } }

/-- Claim C1 counterexample: with user 1 in state selecting_amount and a
successful transaction-creation response, processing the amount leaves the
state field at selecting_amount, which is not awaiting_payment_confirmation
(no code path writes that value). -/
theorem c1_counterexample :
    (create_transaction 1 "alice" 100 oracleOk.createResp).1 = some txA ∧
    (getSession (process_amount_selection oracleOk store1 10 1 100).store 1).map
        Session.state = some "selecting_amount" ∧
    "selecting_amount" ≠ "awaiting_payment_confirmation" := by
  refine ⟨rfl, rfl, by decide⟩

/-- Claim C1 (amended): for a session in state selecting_amount or
entering_custom_amount, processing an amount never raises and the state
field is unchanged on both outcomes (it never becomes
awaiting_payment_confirmation); on successful creation the session is
updated wholesale with the transaction record stored under its
transaction key and the payment screen of show_payment_qr is sent (the QR
photo with caption, or its QR-failure retry prompt when code generation
fails); on failed creation the whole store is unchanged and the
transaction-failure retry prompt is sent. -/
theorem c1_amount_selection_keeps_state (o : Oracle) (store : SessionStore)
    (chat_id user_id : Nat) (amount : Int) (sess : Session)
    (hs : getSession store user_id = some sess)
    (hstate : sess.state = "selecting_amount" ∨ sess.state = "entering_custom_amount") :
    (process_amount_selection o store chat_id user_id amount).isOk = true ∧
    (getSession (process_amount_selection o store chat_id user_id amount).store user_id).map
        Session.state = some sess.state ∧
    (∀ t, (create_transaction user_id (sess.username.getD "User") amount o.createResp).1 = some t →
      (process_amount_selection o store chat_id user_id amount).store =
        setSession store user_id { sess with transaction := some t } ∧
      (process_amount_selection o store chat_id user_id amount).eff.messages =
        show_payment_qr chat_id t o.qrOk) ∧
    ((create_transaction user_id (sess.username.getD "User") amount o.createResp).1 = none →
      (process_amount_selection o store chat_id user_id amount).store = store ∧
      (process_amount_selection o store chat_id user_id amount).eff.messages =
        [OutMsg.text chat_id "❌ Failed to create transaction. Please try again."]) := by
  clear hstate
  simp only [process_amount_selection, hs]
  rcases hc : create_transaction user_id (sess.username.getD "User") amount o.createResp
    with ⟨t?, logs⟩
  cases t? with
  | some t =>
    refine ⟨rfl, by simp [HandlerResult.store, getSession_setSession], ?_, by simp⟩
    intro t' ht'
    obtain rfl : t = t' := by simpa using ht'
    exact ⟨rfl, rfl⟩
  | none =>
    refine ⟨rfl, by simp [HandlerResult.store, hs], ?_, fun _ => ⟨rfl, rfl⟩⟩
    intro t' ht'
    simp at ht'

/-- Witness for C1 at concrete inputs: user 1 in state selecting_amount.
With a successful creation response the session is updated with the
stored transaction and the QR payment screen is sent; with a transport
error the store is unchanged and the retry prompt is sent; both calls
return normally with the state still selecting_amount. -/
theorem c1_witness :
    (process_amount_selection oracleOk store1 10 1 100).isOk = true ∧
    (getSession (process_amount_selection oracleOk store1 10 1 100).store 1).map
        Session.state = some sessA.state ∧
    (process_amount_selection oracleOk store1 10 1 100).store =
      setSession store1 1 { sessA with transaction := some txA } ∧
    (process_amount_selection oracleOk store1 10 1 100).eff.messages =
      show_payment_qr 10 txA oracleOk.qrOk ∧
    (process_amount_selection oracleFailCreate store1 10 1 100).isOk = true ∧
    (process_amount_selection oracleFailCreate store1 10 1 100).store = store1 ∧
    (process_amount_selection oracleFailCreate store1 10 1 100).eff.messages =
      [OutMsg.text 10 "❌ Failed to create transaction. Please try again."] :=
  ⟨(c1_amount_selection_keeps_state oracleOk store1 10 1 100 sessA rfl (Or.inl rfl)).1,
    (c1_amount_selection_keeps_state oracleOk store1 10 1 100 sessA rfl (Or.inl rfl)).2.1,
    ((c1_amount_selection_keeps_state oracleOk store1 10 1 100 sessA rfl
        (Or.inl rfl)).2.2.1 txA rfl).1,
    ((c1_amount_selection_keeps_state oracleOk store1 10 1 100 sessA rfl
        (Or.inl rfl)).2.2.1 txA rfl).2,
    (c1_amount_selection_keeps_state oracleFailCreate store1 10 1 100 sessA rfl (Or.inl rfl)).1,
    ((c1_amount_selection_keeps_state oracleFailCreate store1 10 1 100 sessA rfl
        (Or.inl rfl)).2.2.2 rfl).1,
    ((c1_amount_selection_keeps_state oracleFailCreate store1 10 1 100 sessA rfl
        (Or.inl rfl)).2.2.2 rfl).2⟩

/-- Claim C2 counterexample: user 2 is in state selecting_amount with a
stored transaction; after handling the payment_done_7 tap the state field
is still selecting_amount, not welcome — there is no logical reset. -/
theorem c2_counterexample :
    (getSession (handle_callback oracleOk store2 callPD).1 2).map Session.state =
      some "selecting_amount" ∧
    "selecting_amount" ≠ "welcome" := by
  refine ⟨rfl, by decide⟩

/-- Claim C2 (amended): for a session holding a transaction record,
handling payment done runs the verification, issues exactly one status
patch whose status follows the verification outcome, renders the success
or failure screen accordingly, and leaves the session store — including
the state field — entirely unchanged; the state is never reset to
welcome. -/
theorem c2_payment_done_no_reset (o : Oracle) (store : SessionStore)
    (chat_id user_id : Nat) (tid : Int) (sess : Session) (t : Transaction)
    (hs : getSession store user_id = some sess) (ht : sess.transaction = some t) :
    process_payment_verification o store chat_id user_id tid =
      HandlerResult.ok store
        { messages := [OutMsg.text chat_id
            (if verify_payment (toString tid) o.rand then successText t o.now else failText)],
          patchCalls := [(tid, if verify_payment (toString tid) o.rand then "completed" else "failed")],
          logs := (update_transaction_status tid
            (if verify_payment (toString tid) o.rand then "completed" else "failed")
            o.patchResp).2 } := by
  simp only [process_payment_verification, hs, ht, show_payment_result]
  cases hv : verify_payment (toString tid) o.rand <;> simp

/-- Witness for C2 at a concrete input: user 2 with stored transaction
txA, verification draw 1/2 (success); the handler patches the status to
completed, shows the success screen, and the store is unchanged. -/
theorem c2_witness :
    process_payment_verification oracleOk store2 20 2 7 =
      HandlerResult.ok store2
        { messages := [OutMsg.text 20
            (if verify_payment (toString (7 : Int)) oracleOk.rand
              then successText txA oracleOk.now else failText)],
          patchCalls := [((7 : Int),
            if verify_payment (toString (7 : Int)) oracleOk.rand then "completed" else "failed")],
          logs := (update_transaction_status 7
            (if verify_payment (toString (7 : Int)) oracleOk.rand then "completed" else "failed")
            oracleOk.patchResp).2 } :=
  c2_payment_done_no_reset oracleOk store2 20 2 7 sessB txA rfl rfl

/-- Claim C3: a free-text message in state entering_custom_amount whose
text does not parse as a positive Python int causes no creation call,
sends one of the two reprompt texts, leaves the store (hence the state)
unchanged, and returns without raising. -/
theorem c3_invalid_custom_amount (o : Oracle) (store : SessionStore) (msg : Message)
    (sess : Session)
    (hs : getSession store msg.from_user_id = some sess)
    (hstate : sess.state = "entering_custom_amount")
    (hbad : pyInt msg.text = none ∨ ∃ n, pyInt msg.text = some n ∧ n ≤ 0) :
    (handle_message o store msg).isOk = true ∧
    (handle_message o store msg).store = store ∧
    (handle_message o store msg).eff.createCalls = [] ∧
    ((handle_message o store msg).eff.messages =
        [OutMsg.text msg.chat_id "❌ Please enter a valid number."] ∨
      (handle_message o store msg).eff.messages =
        [OutMsg.text msg.chat_id "❌ Please enter a valid amount greater than 0."]) := by
  simp only [handle_message, hs, hstate]
  rcases hbad with hnone | ⟨n, hn, hle⟩
  · simp [hnone, HandlerResult.isOk, HandlerResult.store, HandlerResult.eff]
  · have hng : ¬ n > 0 := by omega
    simp [hn, hng, HandlerResult.isOk, HandlerResult.store, HandlerResult.eff]

/-- Sample session awaiting a custom amount. -/
def sessC : Session := { state := "entering_custom_amount", username := some "dave" }

/-- Store holding only user 4 awaiting a custom amount. -/
def store4 : SessionStore := [(4, sessC)]

/-- Witness for C3 at a concrete input: user 4 awaiting a custom amount
sends the non-numeric text abc; the reprompt is sent, nothing raises, no
creation call happens, and the store is unchanged. -/
theorem c3_witness :
    (handle_message oracleOk store4 { from_user_id := 4, chat_id := 40, text := "abc" }).isOk = true ∧
    (handle_message oracleOk store4 { from_user_id := 4, chat_id := 40, text := "abc" }).store = store4 ∧
    (handle_message oracleOk store4 { from_user_id := 4, chat_id := 40, text := "abc" }).eff.createCalls = [] ∧
    ((handle_message oracleOk store4 { from_user_id := 4, chat_id := 40, text := "abc" }).eff.messages =
        [OutMsg.text 40 "❌ Please enter a valid number."] ∨
      (handle_message oracleOk store4 { from_user_id := 4, chat_id := 40, text := "abc" }).eff.messages =
        [OutMsg.text 40 "❌ Please enter a valid amount greater than 0."]) :=
  c3_invalid_custom_amount oracleOk store4 { from_user_id := 4, chat_id := 40, text := "abc" }
    sessC rfl rfl (Or.inl rfl)

/-- Claim C4: whenever the dispatch body of a button callback raises, the
per-event boundary of handle_callback returns normally with the store and
effects from the raise point, appends the generic error message for the
originating chat, and appends a log line — no exception escapes the
event. -/
theorem c4_callback_exception_caught (o : Oracle) (store : SessionStore) (call : Call)
    (s : SessionStore) (e : Effects) (err : String)
    (hexn : callback_dispatch o store call = HandlerResult.exn s e err) :
    handle_callback o store call =
      (s, { e with
            messages := e.messages ++
              [OutMsg.text call.message.chat_id "❌ An error occurred. Please try again."],
            logs := e.logs ++ ["Error handling callback: " ++ err] }) := by
  simp [handle_callback, hexn]

/-- Witness for C4 at a concrete input: a payment_done_7 tap from user 2
who has no session at all; the KeyError raised inside the dispatch body
(after the status patch has already been issued) is caught and answered
with the generic error message. -/
theorem c4_witness :
    handle_callback oracleOk [] callPD =
      ([], { messages := [OutMsg.text 20 "❌ An error occurred. Please try again."],
             patchCalls := [((7 : Int), "completed")],
             logs := ["Error handling callback: KeyError"] }) := by
  have h : callback_dispatch oracleOk [] callPD =
      HandlerResult.exn [] { patchCalls := [((7 : Int), "completed")] } "KeyError" := by
    rfl
  exact (c4_callback_exception_caught oracleOk [] callPD _ _ _ h).trans rfl

/-- Claim C5 counterexample: a 500 response to the status patch yields the
failure result false but an empty log — the claim that every non-2xx
response is logged is false for patchTransactionStatus. -/
theorem c5_counterexample :
    (update_transaction_status 7 "completed" (RequestOutcome.response 500 none)).1 = false ∧
    (update_transaction_status 7 "completed" (RequestOutcome.response 500 none)).2 = [] := by
  refine ⟨rfl, rfl⟩

/-- Claim C5 (amended): both client calls convert every non-2xx response
and every transport exception into their explicit failure results (None
and false) without raising; createTransaction logs both failure kinds,
while patchTransactionStatus logs only transport exceptions and returns
false silently on a non-2xx response. -/
theorem c5_client_failure_results :
    (∀ (uid : Nat) (un : String) (am : Int) (s : Nat) (b : Option Transaction),
        ¬ (200 ≤ s ∧ s < 300) →
        (create_transaction uid un am (RequestOutcome.response s b)).1 = none ∧
        (create_transaction uid un am (RequestOutcome.response s b)).2 ≠ []) ∧
    (∀ (uid : Nat) (un : String) (am : Int) (e : String),
        (create_transaction uid un am (RequestOutcome.transportError e)).1 = none ∧
        (create_transaction uid un am (RequestOutcome.transportError e)).2 ≠ []) ∧
    (∀ (tid : Int) (st : String) (s : Nat) (b : Option Unit),
        ¬ (200 ≤ s ∧ s < 300) →
        (update_transaction_status tid st (RequestOutcome.response s b)).1 = false ∧
        (update_transaction_status tid st (RequestOutcome.response s b)).2 = []) ∧
    (∀ (tid : Int) (st : String) (e : String),
        (update_transaction_status tid st (RequestOutcome.transportError e)).1 = false ∧
        (update_transaction_status tid st (RequestOutcome.transportError e)).2 ≠ []) := by
  refine ⟨?_, ?_, ?_, ?_⟩
  · intro uid un am s b hns
    have h200 : (s == 200) = false := by
      simp only [beq_eq_false_iff_ne, ne_eq]
      omega
    simp [create_transaction, h200]
  · intro uid un am e
    simp [create_transaction]
  · intro tid st s b hns
    have h200 : (s == 200) = false := by
      simp only [beq_eq_false_iff_ne, ne_eq]
      omega
    simp [update_transaction_status, h200]
  · intro tid st e
    simp [update_transaction_status]

/-- Witness for C5 at concrete inputs: a 404 creation response gives None
with a nonempty log, and a patch transport error gives false with a
nonempty log. -/
theorem c5_witness :
    (create_transaction 1 "alice" 100 (RequestOutcome.response 404 none)).1 = none ∧
    (create_transaction 1 "alice" 100 (RequestOutcome.response 404 none)).2 ≠ [] ∧
    (update_transaction_status 7 "failed" (RequestOutcome.transportError "timeout")).1 = false ∧
    (update_transaction_status 7 "failed" (RequestOutcome.transportError "timeout")).2 ≠ [] :=
  ⟨(c5_client_failure_results.1 1 "alice" 100 404 none (by omega)).1,
    (c5_client_failure_results.1 1 "alice" 100 404 none (by omega)).2,
    (c5_client_failure_results.2.2.2 7 "failed" "timeout").1,
    (c5_client_failure_results.2.2.2 7 "failed" "timeout").2⟩

/-- Store holding only user 3 in state welcome. -/
def store3 : SessionStore := [(3, { state := "welcome", username := some "carol" })]

/-- Claim C6 counterexample: user 3 has a session in state welcome, so no
custom-amount prompt is active; a free-text message produces no outbound
message at all — the generic nudge is not rendered (the code sends it only
when the user has no session). -/
theorem c6_counterexample :
    (handle_message oracleOk store3
      { from_user_id := 3, chat_id := 30, text := "hello" }).eff.messages = [] := rfl

/-- Claim C6 (amended): free text from a user with no session gets the
generic nudge to use /start or /help; free text from a user whose session
is in any state other than entering_custom_amount is silently ignored
with no reply; in both cases the store — hence the state field — is
unchanged. -/
theorem c6_free_text_without_prompt (o : Oracle) (store : SessionStore) (msg : Message) :
    (getSession store msg.from_user_id = none →
      handle_message o store msg = HandlerResult.ok store
        { messages := [OutMsg.text msg.chat_id "👋 Hi! Use /start to begin or /help for assistance."] }) ∧
    (∀ sess, getSession store msg.from_user_id = some sess →
      sess.state ≠ "entering_custom_amount" →
      handle_message o store msg = HandlerResult.ok store {}) := by
  constructor
  · intro h
    simp [handle_message, h]
  · intro sess h hne
    have hb : (sess.state == "entering_custom_amount") = false := by
      simpa using hne
    simp [handle_message, h, hb]

/-- Witness for C6 at concrete inputs: a sessionless user 9 gets the
nudge; user 3 in state welcome gets no reply; each leaves the store
unchanged. -/
theorem c6_witness :
    handle_message oracleOk [] { from_user_id := 9, chat_id := 90, text := "hi" } =
      HandlerResult.ok []
        { messages := [OutMsg.text 90 "👋 Hi! Use /start to begin or /help for assistance."] } ∧
    handle_message oracleOk store3 { from_user_id := 3, chat_id := 30, text := "hi" } =
      HandlerResult.ok store3 {} :=
  ⟨(c6_free_text_without_prompt oracleOk [] { from_user_id := 9, chat_id := 90, text := "hi" }).1 rfl,
    (c6_free_text_without_prompt oracleOk store3 { from_user_id := 3, chat_id := 30, text := "hi" }).2
      { state := "welcome", username := some "carol" } rfl (by decide)⟩

/-- Claim C7: when the transactions fetch parses with HTTP 200 and the
rows belonging to the user arrive newest-first (creation timestamps
non-increasing), the status screen renders exactly the first five of
them, still newest-first and capped at 5, each entry showing the status
glyph (with the default glyph for any status outside pending, completed,
failed), the amount, the title-cased status label, and the first ten
characters — the date portion — of the creation timestamp; the session
store is untouched. -/
theorem c7_status_rendering (o : Oracle) (store : SessionStore) (msg : Message)
    (txns : List Transaction)
    (hresp : o.listResp = RequestOutcome.response 200 (some txns))
    (hsorted : (txns.filter fun t => t.telegramUserId == toString msg.from_user_id).Pairwise
      (fun a b => strLe b.createdAt a.createdAt = true))
    (hne : (txns.filter fun t => t.telegramUserId == toString msg.from_user_id) ≠ []) :
    ∃ entries,
      entries = (txns.filter fun t => t.telegramUserId == toString msg.from_user_id).take 5 ∧
      entries.length ≤ 5 ∧
      entries.Pairwise (fun a b => strLe b.createdAt a.createdAt = true) ∧
      handle_status_check o store msg = HandlerResult.ok store
        { messages := [OutMsg.text msg.chat_id
            (statusHeader ++ String.join (entries.map statusLine))] } ∧
      (∀ t ∈ entries,
        statusLine t = statusEmoji t.status ++ " **" ++ t.transactionId ++ "**\n" ++
          "   Amount: Rs. " ++ toString t.amount ++ "\n" ++
          "   Status: " ++ pyTitle t.status ++ "\n" ++
          "   Date: " ++ pySlice t.createdAt 10 ++ "\n\n") ∧
      (∀ t ∈ entries, t.status ∉ (["pending", "completed", "failed"] : List String) →
        statusEmoji t.status = "⚪") := by
  refine ⟨_, rfl, ?_, ?_, ?_, ?_, ?_⟩
  · simp [List.length_take]
  · exact List.Pairwise.sublist (List.take_sublist 5 _) hsorted
  · have hemp : (txns.filter fun t => t.telegramUserId == toString msg.from_user_id).isEmpty = false := by
      cases h : txns.filter fun t => t.telegramUserId == toString msg.from_user_id with
      | nil => exact absurd h hne
      | cons a l => rfl
    simp [handle_status_check, statusBodyText, hresp, hemp]
  · intro t _
    rfl
  · intro t _ hnot
    simp only [List.mem_cons, List.not_mem_nil, or_false, not_or] at hnot
    obtain ⟨h1, h2, h3⟩ := hnot
    simp [statusEmoji, h1, h2, h3]

/-- Six transactions of user 5 interleaved with one of user 8, newest
first, exercising the filter, the five-entry cap and the unknown-status
default glyph. -/
def txnsSix : List Transaction := [
  { id := 16, transactionId := "TXN-16", telegramUserId := "5", amount := 600,
    status := "pending", qrCodeData := "q6", createdAt := "2024-01-06T10:00:00" },
  { id := 15, transactionId := "TXN-15", telegramUserId := "5", amount := 500,
    status := "completed", qrCodeData := "q5", createdAt := "2024-01-05T10:00:00" },
  { id := 99, transactionId := "TXN-99", telegramUserId := "8", amount := 999,
    status := "completed", qrCodeData := "q9", createdAt := "2024-01-04T23:00:00" },
  { id := 14, transactionId := "TXN-14", telegramUserId := "5", amount := 400,
    status := "failed", qrCodeData := "q4", createdAt := "2024-01-04T10:00:00" },
  { id := 13, transactionId := "TXN-13", telegramUserId := "5", amount := 300,
    status := "refunded", qrCodeData := "q3", createdAt := "2024-01-03T10:00:00" },
  { id := 12, transactionId := "TXN-12", telegramUserId := "5", amount := 200,
    status := "pending", qrCodeData := "q2", createdAt := "2024-01-02T10:00:00" },
  { id := 11, transactionId := "TXN-11", telegramUserId := "5", amount := 100,
    status := "pending", qrCodeData := "q1", createdAt := "2024-01-01T10:00:00" }]

/-- Oracle whose transactions fetch returns the sample list. -/
def oracleList : Oracle :=
  { oracleOk with listResp := RequestOutcome.response 200 (some txnsSix) }

/-- The /status message of user 5. -/
def msgStatus : Message := { from_user_id := 5, chat_id := 50, text := "/status" }

/-- Witness for C7 at a concrete input: user 5 with six own transactions
(newest-first) and one foreign row; the rendered entries are the five
newest of the filtered list. -/
theorem c7_witness :
    ∃ entries,
      entries = (txnsSix.filter fun t => t.telegramUserId == toString msgStatus.from_user_id).take 5 ∧
      entries.length ≤ 5 ∧
      entries.Pairwise (fun a b => strLe b.createdAt a.createdAt = true) ∧
      handle_status_check oracleList [] msgStatus = HandlerResult.ok []
        { messages := [OutMsg.text msgStatus.chat_id
            (statusHeader ++ String.join (entries.map statusLine))] } ∧
      (∀ t ∈ entries,
        statusLine t = statusEmoji t.status ++ " **" ++ t.transactionId ++ "**\n" ++
          "   Amount: Rs. " ++ toString t.amount ++ "\n" ++
          "   Status: " ++ pyTitle t.status ++ "\n" ++
          "   Date: " ++ pySlice t.createdAt 10 ++ "\n\n") ∧
      (∀ t ∈ entries, t.status ∉ (["pending", "completed", "failed"] : List String) →
        statusEmoji t.status = "⚪") :=
  c7_status_rendering oracleList [] msgStatus txnsSix rfl (by decide) (by decide)

/-- Claim C8: simulated verification ignores the transaction id and, as a
function of the uniform draw r in the unit interval, succeeds exactly on
the open interval from 0.2 to 1, whose length 1 - 0.2 = 0.8 is the fixed
80 percent success probability. -/
theorem c8_verify_probability (tid1 tid2 : String) (r : Rat)
    (h0 : 0 ≤ r) (h1 : r < 1) :
    verify_payment tid1 r = verify_payment tid2 r ∧
    (verify_payment tid1 r = true ↔ r ∈ Set.Ioo (0.2 : Rat) 1) ∧
    (1 : Rat) - 0.2 = 0.8 := by
  have hq : (mkRat 1 5 : Rat) = 0.2 := by
    norm_num [Rat.mkRat_eq_div]
  refine ⟨rfl, ?_, by norm_num⟩
  simp only [verify_payment, decide_eq_true_eq, Set.mem_Ioo, hq]
  exact ⟨fun h => ⟨h, h1⟩, fun h => h.1⟩

/-- Witness for C8 at the concrete draw one half: both transaction ids
verify identically and the success condition is exactly membership in the
interval from 0.2 to 1. -/
theorem c8_witness :
    verify_payment "a" (mkRat 1 2) = verify_payment "b" (mkRat 1 2) ∧
    (verify_payment "a" (mkRat 1 2) = true ↔ (mkRat 1 2) ∈ Set.Ioo (0.2 : Rat) 1) ∧
    (1 : Rat) - 0.2 = 0.8 :=
  c8_verify_probability "a" "b" (mkRat 1 2)
    (by norm_num [Rat.mkRat_eq_div]) (by norm_num [Rat.mkRat_eq_div])

/-- Claim C9: the /escrow command and the start_escrow button both replace
the session wholesale with a record holding only state selecting_amount —
no username, no transaction — and a later amount selection from such a
session issues its creation call with the default username User. -/
theorem c9_escrow_overwrites_session (o : Oracle) (store storeB : SessionStore)
    (msg : Message) (call : Call) (hdata : call.data = "start_escrow") :
    getSession (handle_escrow_start store msg).store msg.from_user_id =
      some { state := "selecting_amount", username := none, transaction := none } ∧
    getSession (handle_callback o store call).1 call.from_user_id =
      some { state := "selecting_amount", username := none, transaction := none } ∧
    (∀ (o2 : Oracle) (chat_id user_id : Nat) (amount : Int),
      getSession storeB user_id =
        some { state := "selecting_amount", username := none, transaction := none } →
      (process_amount_selection o2 storeB chat_id user_id amount).eff.createCalls =
        [(user_id, "User", amount)]) := by
  refine ⟨?_, ?_, ?_⟩
  · simp [handle_escrow_start, HandlerResult.store, getSession_setSession]
  · simp [handle_callback, callback_dispatch, hdata, getSession_setSession]
  · intro o2 chat_id user_id amount hfresh
    simp only [process_amount_selection, hfresh]
    rcases hc : create_transaction user_id (Option.getD none "User") amount o2.createResp
      with ⟨t?, logs⟩
    cases t? <;> simp_all [HandlerResult.eff]

/-- The /escrow message of user 1 (who had a username captured). -/
def msgEscrow : Message :=
  { from_user_id := 1, from_username := some "alice", chat_id := 10, text := "/escrow" }

/-- Callback event: user 1 taps the start_escrow button. -/
def callSE : Call :=
  { from_user_id := 1, data := "start_escrow",
    message := { from_user_id := 999, chat_id := 10, text := "" } }

/-- Witness for C9 at concrete inputs: user 1, whose session held the
username alice, starts a new escrow flow both ways; the session becomes
the bare selecting_amount record and a 750-rupee amount selection then
creates the transaction under the default username User. -/
theorem c9_witness :
    getSession (handle_escrow_start store1 msgEscrow).store 1 =
      some { state := "selecting_amount", username := none, transaction := none } ∧
    getSession (handle_callback oracleOk store1 callSE).1 1 =
      some { state := "selecting_amount", username := none, transaction := none } ∧
    (process_amount_selection oracleOk [(1, { state := "selecting_amount" })] 10 1 750).eff.createCalls =
      [(1, "User", 750)] :=
  ⟨(c9_escrow_overwrites_session oracleOk store1 [(1, { state := "selecting_amount" })]
      msgEscrow callSE rfl).1,
    (c9_escrow_overwrites_session oracleOk store1 [(1, { state := "selecting_amount" })]
      msgEscrow callSE rfl).2.1,
    (c9_escrow_overwrites_session oracleOk store1 [(1, { state := "selecting_amount" })]
      msgEscrow callSE rfl).2.2 oracleOk 10 1 750 rfl⟩

/-- Claim C10: the outcome screen and the resulting store depend only on
the verification draw and the clock, not on the status-patch response:
two payment-done events differing only in the patch outcome produce
identical stores, identical outbound messages and identical patch
requests (only log lines may differ), so the success screen shows even
when the patch failed. -/
theorem c10_patch_result_ignored (o1 o2 : Oracle) (store : SessionStore)
    (chat_id user_id : Nat) (tid : Int)
    (hrand : o1.rand = o2.rand) (hnow : o1.now = o2.now) :
    (process_payment_verification o1 store chat_id user_id tid).store =
      (process_payment_verification o2 store chat_id user_id tid).store ∧
    (process_payment_verification o1 store chat_id user_id tid).eff.messages =
      (process_payment_verification o2 store chat_id user_id tid).eff.messages ∧
    (process_payment_verification o1 store chat_id user_id tid).eff.patchCalls =
      (process_payment_verification o2 store chat_id user_id tid).eff.patchCalls := by
  simp only [process_payment_verification, hrand, hnow]
  cases hg : getSession store user_id with
  | none => simp [HandlerResult.store, HandlerResult.eff]
  | some sess =>
    cases hv : verify_payment (toString tid) o2.rand <;>
      cases ht : sess.transaction <;>
        simp [show_payment_result, ht, HandlerResult.store, HandlerResult.eff]

/-- Witness for C10 at a concrete input: user 2 confirms payment of
transaction 7 with a successful verification draw; whether the status
patch succeeds or the API is unreachable, the store, the outbound
messages (the success screen) and the patch request are identical. -/
theorem c10_witness :
    (process_payment_verification oracleOk store2 20 2 7).store =
      (process_payment_verification oraclePatchDown store2 20 2 7).store ∧
    (process_payment_verification oracleOk store2 20 2 7).eff.messages =
      (process_payment_verification oraclePatchDown store2 20 2 7).eff.messages ∧
    (process_payment_verification oracleOk store2 20 2 7).eff.patchCalls =
      (process_payment_verification oraclePatchDown store2 20 2 7).eff.patchCalls :=
  c10_patch_result_ignored oracleOk oraclePatchDown store2 20 2 7 rfl rfl
